import Mathlib

/-!
Verification of the Hydrogen repository against its specification.

Each section shallowly embeds one part of the TypeScript source:
pure functions become Lean functions, stateful handlers become explicit
state passing, fallible code returns `Except`/`Option`, and external
service bindings (fetch targets, file system, locale formatting) become
function parameters.
-/

/-! ## A small JSON value model

Used wherever the source serialises objects with `JSON.stringify` or
parses bodies with `parseJSON`: the embedding keeps the structured value
rather than its serialised text. -/

inductive J where
  | str (s : String)
  | num (n : Int)
  | bool (b : Bool)
  | null
  | arr (elems : List J)
  | obj (fields : List (String × J))

/-! ## String utilities

Character-list implementations of the JavaScript string operations the
embeddings need (`RegExp.test` with a literal pattern is substring
search; the `/i` flag lowercases both sides). -/

/-- Whether `pat` occurs as a contiguous run inside the list. -/
def hasSubSeq (pat : List Char) : List Char → Bool
  | [] => pat.isEmpty
  | c :: rest => pat.isPrefixOf (c :: rest) || hasSubSeq pat rest

/-- Case-insensitive substring test: `new RegExp(pat, 'i').test(s)` for a
pattern without metacharacters. -/
def containsSubstringCI (pat s : String) : Bool :=
  hasSubSeq (pat.toList.map Char.toLower) (s.toList.map Char.toLower)

/-! ## C1: dev-server worker routing
Embeds `miniOxygenHandler` from
`packages/cli/src/lib/mini-oxygen/workerd.ts` (src/unnamed/part_003 lines
198-263 and part_004 lines 175-240; the routing logic is identical in
both revisions).  Service bindings (`hydrogen`, `assets`, `debugNetwork`)
are modelled as response-valued functions; the `request-id` header
merging and the `context.waitUntil(env.logRequest.fetch(...))` logging
are effect-only (they do not influence which response is returned) and
are not part of the routing model. -/

structure MiniReq where
  pathname : String
  method : String

structure MiniResp where
  status : Nat
  tag : String

structure MiniEnv where
  hydrogen : MiniReq → MiniResp
  assets : MiniReq → MiniResp
  debugNetwork : MiniReq → MiniResp
  staticAssetExtensions : List String

/-- From the source: `pathname.split('.').at(-1) ?? ''`. -/
def lastDotSegment (pathname : String) : String :=
  (pathname.splitOn ".").getLastD ""

/-- From the source: `wellKnown || !!staticAssetExtensions.has(extension.toUpperCase())`,
guarded by `request.method === 'GET'`. -/
def isAssetRequest (env : MiniEnv) (request : MiniReq) : Bool :=
  request.method == "GET" &&
    (request.pathname.startsWith "/.well-known" ||
      env.staticAssetExtensions.contains (lastDotSegment request.pathname).toUpper)

def miniOxygenHandler (env : MiniEnv) (request : MiniReq) : MiniResp :=
  if request.pathname == "/debug-network-server" then
    env.debugNetwork request
  else if isAssetRequest env request then
    let response := env.assets request
    if response.status != 404 then response
    else env.hydrogen request
  else
    env.hydrogen request

/-! ## C7: getFeaturedData
Embeds `getFeaturedData` from src/unnamed/part_007 (the featured-products
route module).  `flattenConnection` is from the external
`@shopify/hydrogen-react` package (not in this repository): modelled from
its documented behaviour of returning the connection's `nodes` array, or
mapping `edges` to their `node`s.  The storefront query result is a
parameter (`none` models a falsy `data`, which trips the invariant). -/

structure ConnEdge (α : Type) where
  node : α

inductive Connection (α : Type) where
  | nodes (ns : List α)
  | edges (es : List (ConnEdge α))

/-- Modelled from the spec: external `flattenConnection` helper
(`@shopify/hydrogen-react`), which flattens a GraphQL connection into a
plain array of nodes. -/
def flattenConnection {α : Type} : Connection α → List α
  | .nodes ns => ns
  | .edges es => es.map (·.node)

structure FeaturedQueryData (α β : Type) where
  featuredCollections : Connection α
  featuredProducts : Connection β

structure FeaturedResult (α β : Type) where
  featuredCollections : List α
  featuredProducts : List β

def getFeaturedData {α β : Type} (data : Option (FeaturedQueryData α β)) :
    Except String (FeaturedResult α β) :=
  match data with
  | none => .error "No data returned from Shopify API"
  | some d =>
      .ok { featuredCollections := flattenConnection d.featuredCollections
            featuredProducts := flattenConnection d.featuredProducts }

/-! ## C3: formatDeployment -/

structure Deployment where
  createdAt : String
  commitMessage : Option String

/-- Modelled from the spec: `formatDeployment` lives in
`packages/cli/src/commands/hydrogen/list.ts`, which is not among the
provided sources (only its test `list.test.ts` is).  Per the spec and the
test: the locale-formatted `createdAt` date (locale formatting is the
external `Date.prototype.toLocaleDateString`, passed as a parameter),
followed by `, ` and the first line of the commit message when present. -/
def formatDeployment (localeDate : String → String) (d : Deployment) : String :=
  localeDate d.createdAt ++
    match d.commitMessage with
    | some m => ", " ++ (m.splitOn "\n").headD ""
    | none => ""

/-! ## C2 and C5: customer-account client error handling
Embeds the error-handling flow of `fetchCustomerAPI` and `authorize` from
`packages/hydrogen/src/customer/customer.ts`.

The session is the value stored under `CUSTOMER_ACCOUNT_SESSION_KEY`
(`none` models a missing/cleared entry); `clearSession` is the helper
from `auth.helpers` that unsets that key.  `fetch` results are a
parameter (`CustResp`), and `parseJSON` is a parameter returning
`Option J` (`none` models a parse exception). -/

structure CustomerSession where
  accessToken : Option String
  expiresAt : Option String
  refreshToken : Option String
  idToken : Option String
  state : Option String
  nonce : Option String
  codeVerifier : Option String
  redirectPath : Option String

abbrev Session := Option CustomerSession

/-- Embeds `clearSession(session)`: unsets the customer-account session key. -/
def clearSession (_session : Session) : Session := none

structure CustResp where
  ok : Bool
  status : Nat
  body : String

/-- A value thrown by `fetchCustomerAPI`: either the result of
`authStatusHandler()` (by default a redirect to the login URL) or the
error built by `throwErrorWithGqlLink` (which always throws). -/
inductive CustomerFetchThrow where
  | authStatus
  | gqlError (errors : J)

/-- The `{message: body}` wrapping used when the error body is not JSON. -/
def wrapBodyAsErrors (body : String) : J :=
  .arr [.obj [("message", .str body)]]

/-- The part of `fetchCustomerAPI` that runs once the access token was
obtained and the API `fetch` resolved to `response` with text `body`
(customer.ts lines 138-176).  Returns the outcome paired with the
resulting session. -/
def fetchCustomerAPIResult (parseJSON : String → Option J)
    (session : Session) (response : CustResp) :
    Except CustomerFetchThrow J × Session :=
  if !response.ok then
    if response.status = 401 then
      -- clear session because current access token is invalid
      (.error .authStatus, clearSession session)
    else
      let errors := match parseJSON response.body with
        | some j => j
        | none => wrapBodyAsErrors response.body
      (.error (.gqlError errors), session)
  else
    match parseJSON response.body with
    | some j => (.ok j, session)
    | none => (.error (.gqlError (wrapBodyAsErrors response.body)), session)

/-- A value thrown by `authorize`: a `BadRequest` error or a raw
`Response` passthrough of the upstream token-exchange response. -/
inductive AuthorizeThrow where
  | badRequest (title message : String)
  | httpResponse (body : String) (status : Nat) (contentType : String)

/-- Inputs of `authorize` that come from outside the session: the `code`
and `state` query parameters of the request URL, the token-exchange
`fetch` response, the nonce extracted from the returned `id_token` by
`getNonce`, the parsed token fields, the exchanged customer access token
and the current time. -/
structure AuthorizeEnv where
  code : Option String
  state : Option String
  tokenResponse : CustResp
  responseNonce : Option String
  expiresIn : Int
  idToken : String
  refreshToken : String
  exchangedAccessToken : String
  now : Int

def displayNonce : Option String → String
  | some s => s
  | none => "undefined"

/-- JavaScript truthiness for a `searchParams.get`/session string value:
`!v` holds when the value is `null`/`undefined` (`none`) or the empty
string. -/
def falsyParam (v : Option String) : Bool :=
  v.getD "" == ""

/-- Embeds `authorize` (customer.ts lines 299-419) as explicit state
passing over the session.  The guards `if (!code || !state)` and
`if (!codeVerifier)` use JavaScript truthiness (`falsyParam`), so an
empty-string query parameter counts as missing.  On success it returns
the redirect target. -/
def authorize (env : AuthorizeEnv) (session : Session) :
    Except AuthorizeThrow String × Session :=
  if falsyParam env.code || falsyParam env.state then
    (.error (.badRequest "Unauthorized"
      "No code or state parameter found in the redirect URL."),
      clearSession session)
  else
    let state := env.state.getD ""
    if (session.bind (·.state)) ≠ some state then
      (.error (.badRequest "Unauthorized"
        "The session state does not match the state parameter. Make sure that the session is configured correctly and passed to `createCustomerAccountClient`."),
        clearSession session)
    else
      let codeVerifier := session.bind (·.codeVerifier)
      if falsyParam codeVerifier then
        (.error (.badRequest "Unauthorized"
          "No code verifier found in the session. Make sure that the session is configured correctly and passed to `createCustomerAccountClient`."),
          session)
      else
        if !env.tokenResponse.ok then
          (.error (.httpResponse env.tokenResponse.body env.tokenResponse.status
            "text/html; charset=utf-8"), session)
        else
          let sessionNonce := session.bind (·.nonce)
          if sessionNonce ≠ env.responseNonce then
            (.error (.badRequest "Unauthorized"
              ("Returned nonce does not match: " ++ displayNonce sessionNonce ++
                " !== " ++ displayNonce env.responseNonce)), session)
          else
            let redirectPath := session.bind (·.redirectPath)
            let newSession : Session := some {
              accessToken := some env.exchangedAccessToken
              expiresAt := some (toString (env.now + (env.expiresIn - 120) * 1000))
              refreshToken := some env.refreshToken
              idToken := some env.idToken
              state := none, nonce := none, codeVerifier := none
              redirectPath := none }
            let target := match redirectPath with
              | some p => if p = "" then "/account" else p
              | none => "/account"
            (.ok target, newSession)

/-! ## C9: notFoundMaybeRedirect and isLocalPath
Embeds `notFoundMaybeRedirect` and `isLocalPath` (the module appended to
customer.ts in the sources, lines 425-474).  `new URL(value)` is the
external WHATWG URL parser: modelled as a Boolean parameter
`parsesAsAbsoluteURL` (`true` means the constructor succeeds, i.e. the
value is a fully-qualified URL). -/

inductive NFResp where
  | redirectTo (status : Nat) (location : String)
  | notFound (status : Nat) (body : String)

/-- True exactly when `new URL(url)` throws. -/
def isLocalPath (parsesAsAbsoluteURL : String → Bool) (url : String) : Bool :=
  !(parsesAsAbsoluteURL url)

structure NotFoundInput where
  /-- Targets of `urlRedirects.edges`, in order. -/
  urlRedirectTargets : List String
  /-- Models `searchParams.get('return_to')` (`none` models `null`). -/
  returnTo : Option String
  /-- Models `searchParams.get('redirect')`. -/
  redirectParam : Option String

/-- From the source: `searchParams.get('return_to') || searchParams.get('redirect')`;
JavaScript `||` falls through on the empty string. -/
def redirectPathOf (inp : NotFoundInput) : Option String :=
  match inp.returnTo with
  | some s => if s = "" then inp.redirectParam else some s
  | none => inp.redirectParam

def notFoundMaybeRedirect (parsesAsAbsoluteURL : String → Bool)
    (inp : NotFoundInput) : NFResp :=
  match inp.urlRedirectTargets with
  | target :: _ => .redirectTo 302 target
  | [] =>
    match redirectPathOf inp with
    | some p =>
        -- `if (redirectPath && isLocalPath(redirectPath))`
        if p ≠ "" ∧ isLocalPath parsesAsAbsoluteURL p = true then
          .redirectTo 302 p
        else
          .notFound 404 "Not found"
    | none => .notFound 404 "Not found"

/-! ## C4: inspector proxy HTTP endpoints
Embeds the `createServer` request handler of `createInspectorProxy`
(`packages/cli/src/lib/mini-oxygen/workerd-inspector-proxy.ts` lines
34-85).  `JSON.stringify` outputs are kept as structured `J` values;
`readFileSync` is a parameter from paths to file contents; the host of a
connected inspector WebSocket (`new URL(inspectorWs.url).host`) is an
optional parameter. -/

inductive ProxyBody where
  | json (v : J)
  | text (contents : String)

structure ProxyHttpResp where
  contentType : String
  cacheControl : Option String
  accessControlAllowOrigin : Option String
  body : ProxyBody

/-- The inspector target served on `/json` and `/json/list`. -/
def inspectorTargetJson (port : Nat) (sessionId : String)
    (inspectorHost : Option String) : J :=
  let localHost := "localhost:" ++ toString port ++ "/ws"
  let devtoolsFrontendUrl :=
    "devtools://devtools/bundled/js_app.html?experiments=true&v8only=true&ws=" ++
      localHost
  let devtoolsFrontendUrlCompat :=
    "devtools://devtools/bundled/inspector.html?experiments=true&v8only=true&ws=" ++
      localHost
  .obj [
    ("id", .str sessionId),
    ("type", .str "node"),
    ("webSocketDebuggerUrl", .str ("ws://" ++ localHost)),
    ("devtoolsFrontendUrl", .str devtoolsFrontendUrl),
    ("devtoolsFrontendUrlCompat", .str devtoolsFrontendUrlCompat),
    ("title", .str "Hydrogen / Oxygen Worker"),
    ("faviconUrl",
      .str "https://cdn.shopify.com/s/files/1/0598/4822/8886/files/favicon.svg"),
    ("url", .str ("https://" ++ (inspectorHost.getD localHost)))]

/-- Characters before the first `?`. -/
def charsBeforeQuery : List Char → List Char
  | [] => []
  | c :: rest => if c = '?' then [] else c :: charsBeforeQuery rest

/-- From the source: `req.url?.split('?')[0] ?? ''`. -/
def stripQuery (rawUrl : Option String) : String :=
  String.mk (charsBeforeQuery (rawUrl.getD "").toList)

/-- Field lookup in a serialised JSON object. -/
def jField (key : String) : J → Option J
  | .obj fields => fields.lookup key
  | _ => none

/-- The proxy server request handler; `none` models falling through the
`switch` without responding. -/
def inspectorProxyHttpHandler (port : Nat) (sessionId : String)
    (sourceFilePath : String) (inspectorHost : Option String)
    (readFileSync : String → String) (rawUrl : Option String) :
    Option ProxyHttpResp :=
  let url := stripQuery rawUrl
  if url = "/json/version" then
    some { contentType := "application/json"
           cacheControl := none, accessControlAllowOrigin := none
           body := .json (.obj [("Browser", .str "hydrogen/v2"),
                                ("Protocol-Version", .str "1.3")]) }
  else if url = "/json" ∨ url = "/json/list" then
    some { contentType := "application/json"
           cacheControl := none, accessControlAllowOrigin := none
           body := .json (.arr [inspectorTargetJson port sessionId inspectorHost]) }
  else if url = "/__index.js.map" then
    some { contentType := "text/plain"
           cacheControl := some "no-store"
           accessControlAllowOrigin := some "devtools://devtools"
           body := .text (readFileSync (sourceFilePath ++ ".map")) }
  else
    none

/-! ## C6: customer-account push
Embeds the failure handling of `runCustomerAccountPush`
(`packages/cli/src/commands/hydrogen/customer-account/push.ts` lines
44-168).  The storefront id lookup and the admin mutation result
(`replaceCustomerApplicationUrls`) are parameters.  `AbortError` is the
framework error type: modelled by its observable fields (headline, the
error list rendered in the body, and the next-step links). -/

structure UserError where
  field : List String
  message : String
  code : String
  deriving DecidableEq

/-- Renders `${value.field}: ${value.message}` — a JavaScript array
interpolates as its elements joined by commas. -/
def userErrorLine (e : UserError) : String :=
  String.intercalate "," e.field ++ ": " ++ e.message

/-- From the source: `/Javascript origin is not allowed for this application type/i.test(message)`. -/
def matchesConfidentialAccess (message : String) : Bool :=
  containsSubstringCI "Javascript origin is not allowed for this application type"
    message

structure NextStep where
  label : String
  url : String

def manualUpdateStep : NextStep :=
  { label := "Manually update application setup"
    url := "https://shopify.dev/docs/custom-storefronts/building-with-the-customer-account-api/hydrogen#update-the-application-setup" }

def enablePublicAccessStep : NextStep :=
  { label := "Enable Public access for Hydrogen"
    url := "https://shopify.dev/docs/custom-storefronts/building-with-the-customer-account-api/getting-started#step-1-enable-customer-account-api-access" }

inductive PushResult where
  | ok
  | abortError (headline : String) (errorItems : List String)
    (nextSteps : List NextStep)

/-- The `catch` block: builds the `AbortError` from the thrown error
(`fallbackMessage` is `error.message`; `userErrors` is
`error.userErrors`, empty when absent).  The `\n\n` prefixes added to
every item after the first are list presentation and are not modelled. -/
def pushAbortError (fallbackMessage : String) (userErrors : List UserError) :
    PushResult :=
  let confidentialAccessFound :=
    userErrors.any (fun e => matchesConfidentialAccess e.message)
  let errors :=
    if userErrors.length ≠ 0 then userErrors.map userErrorLine
    else [fallbackMessage]
  let nextSteps :=
    if confidentialAccessFound then [enablePublicAccessStep, manualUpdateStep]
    else [manualUpdateStep]
  .abortError "Customer Account Application setup update fail." errors nextSteps

def runCustomerAccountPush (storefrontId : Option String) (success : Bool)
    (userErrors : List UserError) : PushResult :=
  match storefrontId with
  | none =>
      -- `throw new Error('No storefrontId was found ...')`, caught below;
      -- a plain Error carries no `userErrors`.
      pushAbortError
        "No storefrontId was found in --storefront-id flag or .shopify/project.json"
        []
  | some _ =>
      if !success || userErrors.length != 0 then
        -- `error.userErrors = userErrors; throw error`, caught below.
        pushAbortError "Customer Account Application setup update fail."
          userErrors
      else
        .ok

/-! ## C8: token-refresh locks -/

/-- Modelled from the spec: `Locks` and `checkExpires` live in
`packages/hydrogen/src/customer/auth.helpers.ts`, which is not among the
provided sources; customer.ts line 93 creates the single shared `locks`
object per client and `isLoggedIn` (lines 189-201) passes it to
`checkExpires`.  Per the spec (§5), the locks are a few lines of
in-memory mutual-exclusion bookkeeping guarding token-refresh races. -/
structure Locks where
  refresh : Option Nat

/-- Shared state seen by concurrent `checkExpires` calls: the client's
single `locks` object plus a count of refresh requests issued. -/
structure RefreshState where
  locks : Locks
  refreshRequests : Nat

/-- Modelled from the spec: the lock acquisition step of `checkExpires`.
When the token is expired, a caller that finds no refresh in flight
stores its own refresh promise in the shared lock and issues the request
(one atomic step: JavaScript runs it without an intervening await);
a caller that finds the lock taken awaits the existing promise and
issues nothing. -/
def checkExpiresAcquire (expired : Bool) (tid : Nat) (s : RefreshState) :
    RefreshState :=
  if expired then
    match s.locks.refresh with
    | some _ => s
    | none =>
        { locks := { refresh := some tid }
          refreshRequests := s.refreshRequests + 1 }
  else s

/-- Any interleaving of concurrent `checkExpires` calls over the shared
locks object: each scheduled task performs its acquisition step in
order. -/
def runConcurrentChecks (expired : Bool) (sched : List Nat)
    (s : RefreshState) : RefreshState :=
  sched.foldl (fun st tid => checkExpiresAcquire expired tid st) s

/-! ## C10: inspector proxy WebSocket state machine
Embeds the `wsServer.on('connection')` handler and
`sendMessageToDebugger` of `createInspectorProxy`
(workerd-inspector-proxy.ts lines 94-127 and 158-185) as a step function
over the proxy state.  The `Debugger.scriptParsed` source-map-URL
rewrite applied when DevTools runs in a browser is an opaque parameter
`interceptSourceMapURL`; messages to the inspector are recorded as an
event list.  `clientTracking: true` adds a socket to the tracked set
before the connection handler runs; a socket closed by the handler
leaves the tracked set again, which the model applies immediately. -/

inductive InspectorMsg where
  | debuggerDisable
  | forwarded (data : String)
  deriving DecidableEq

structure ProxyWsState where
  clients : List Nat
  debuggerWs : Option Nat
  isDevToolsInBrowser : Bool
  messageBuffer : List String
  debuggerSent : List (Nat × String)
  inspectorSent : List InspectorMsg
  closes : List (Nat × Nat × String)
  inspectorAttached : Bool
  deriving DecidableEq

def tooManyClientsReason : String :=
  "Too many clients; only one can be connected at a time"

def sendMessageToDebugger (interceptSourceMapURL : String → String)
    (s : ProxyWsState) (data : String) : ProxyWsState :=
  let data := if s.isDevToolsInBrowser then interceptSourceMapURL data else data
  match s.debuggerWs with
  | some d => { s with debuggerSent := s.debuggerSent ++ [(d, data)] }
  | none => { s with messageBuffer := s.messageBuffer ++ [data] }

inductive ProxyEvent where
  | connect (id : Nat) (mozillaUserAgent : Bool)
  | inspectorMessage (data : String)
  | debuggerClosed

def proxyStep (interceptSourceMapURL : String → String) (s : ProxyWsState) :
    ProxyEvent → ProxyWsState
  | .connect id mozillaUserAgent =>
    let tracked := s.clients ++ [id]
    if tracked.length > 1 then
      -- `ws.close(1013, 'Too many clients; ...')`: the rejected socket is
      -- closed and leaves the tracked set; nothing else changes.
      { s with closes := s.closes ++ [(id, 1013, tooManyClientsReason)] }
    else
      -- restart the debugger in workerd before attaching the new client
      let s1 := { s with clients := tracked }
      let s2 :=
        if s1.inspectorAttached then
          { s1 with inspectorSent := s1.inspectorSent ++ [.debuggerDisable] }
        else s1
      let s3 := { s2 with debuggerWs := some id
                          isDevToolsInBrowser := mozillaUserAgent }
      -- flush any buffered messages
      let s4 := s3.messageBuffer.foldl (sendMessageToDebugger interceptSourceMapURL) s3
      { s4 with messageBuffer := [] }
  | .inspectorMessage data => sendMessageToDebugger interceptSourceMapURL s data
  | .debuggerClosed =>
    match s.debuggerWs with
    | some d => { s with clients := s.clients.filter (· ≠ d), debuggerWs := none }
    | none => s

/-! ## Theorems -/

/-- Claim C1: `miniOxygenHandler` routes by pathname: exactly
`/debug-network-server` goes to the `debugNetwork` binding; a GET request
to a `/.well-known` path or with a static-asset extension first goes to
the `assets` binding and that response is returned unless it is a 404;
every other request, and every asset request that got a 404, goes to the
`hydrogen` binding. -/
theorem c1_miniOxygenHandler_routing (env : MiniEnv) (request : MiniReq) :
    miniOxygenHandler env request =
      if request.pathname = "/debug-network-server" then
        env.debugNetwork request
      else if request.method = "GET" ∧
          (request.pathname.startsWith "/.well-known" = true ∨
            (lastDotSegment request.pathname).toUpper ∈ env.staticAssetExtensions) then
        if (env.assets request).status ≠ 404 then env.assets request
        else env.hydrogen request
      else
        env.hydrogen request := by
  unfold miniOxygenHandler isAssetRequest
  by_cases hdbg : request.pathname = "/debug-network-server"
  · simp [hdbg]
  · simp only [hdbg, if_false]
    by_cases hm : request.method = "GET"
    · by_cases hwk : request.pathname.startsWith "/.well-known" = true
      · by_cases h404 : (env.assets request).status = 404 <;>
          simp [hm, hwk, hdbg, h404]
      · by_cases hext : (lastDotSegment request.pathname).toUpper ∈ env.staticAssetExtensions
        · by_cases h404 : (env.assets request).status = 404 <;>
            simp [hm, hwk, hdbg, hext, h404]
        · simp [hm, hwk, hdbg, hext]
    · simp [hm, hdbg]

/-- Claim C7: `getFeaturedData` errors with the invariant message
`No data returned from Shopify API` when the storefront query yields no
data, and otherwise returns the two connections flattened into plain
arrays of nodes. -/
theorem c7_getFeaturedData_invariant {α β : Type} :
    (getFeaturedData (α := α) (β := β) none =
      .error "No data returned from Shopify API") ∧
    ∀ d : FeaturedQueryData α β,
      getFeaturedData (some d) =
        .ok { featuredCollections := flattenConnection d.featuredCollections
              featuredProducts := flattenConnection d.featuredProducts } := by
  exact ⟨rfl, fun d => rfl⟩

/-- Claim C2: when the Customer Account API response is not ok,
`fetchCustomerAPI` never returns normally: on status 401 it clears the
customer session and throws the auth-status handler result, and on any
other non-ok status it throws a GraphQL error built from the response
body, parsed as JSON when possible and otherwise wrapped as a message. -/
theorem c2_fetchCustomerAPI_non_ok (parseJSON : String → Option J)
    (session : Session) (response : CustResp) (h : response.ok = false) :
    (response.status = 401 →
      fetchCustomerAPIResult parseJSON session response =
        (.error .authStatus, clearSession session)) ∧
    (response.status ≠ 401 →
      fetchCustomerAPIResult parseJSON session response =
        (.error (.gqlError (match parseJSON response.body with
            | some j => j
            | none => wrapBodyAsErrors response.body)), session)) ∧
    (∀ r s, fetchCustomerAPIResult parseJSON session response ≠ (.ok r, s)) := by
  refine ⟨fun h401 => ?_, fun h401 => ?_, fun r s => ?_⟩
  · simp [fetchCustomerAPIResult, h, h401]
  · simp [fetchCustomerAPIResult, h, h401]
  · simp only [fetchCustomerAPIResult, h, Bool.not_false, if_pos]
    by_cases h401 : response.status = 401
    · simp [h401]
    · simp only [h401, if_false]
      cases parseJSON response.body <;> simp

def sampleCustomerSession : CustomerSession :=
  { accessToken := some "token", expiresAt := some "9999999999999"
    refreshToken := some "refresh", idToken := some "id"
    state := some "st", nonce := some "n", codeVerifier := some "v"
    redirectPath := some "/orders" }

theorem c2_fetchCustomerAPI_non_ok_witness :
    fetchCustomerAPIResult (fun _ => none) (some sampleCustomerSession)
        { ok := false, status := 401, body := "unauthorized" } =
      (.error .authStatus, none) ∧
    fetchCustomerAPIResult (fun _ => none) (some sampleCustomerSession)
        { ok := false, status := 500, body := "boom" } =
      (.error (.gqlError (wrapBodyAsErrors "boom")), some sampleCustomerSession) := by
  constructor
  · exact (c2_fetchCustomerAPI_non_ok (fun _ => none) (some sampleCustomerSession)
      { ok := false, status := 401, body := "unauthorized" } rfl).1 rfl
  · exact (c2_fetchCustomerAPI_non_ok (fun _ => none) (some sampleCustomerSession)
      { ok := false, status := 500, body := "boom" } rfl).2.1 (by decide)

/-- Claim C5: `authorize` throws a `Response` passthrough carrying the
upstream status and body text when the token-exchange response is not
ok; and when `code` or `state` is missing, or the session state does not
match the request state, it clears the session and throws a BadRequest
(`Unauthorized`) error before any code exchange. -/
theorem c5_authorize_errors (env : AuthorizeEnv) (session : Session) :
    (env.code = none ∨ env.code = some "" ∨
        env.state = none ∨ env.state = some "" →
      authorize env session =
        (.error (.badRequest "Unauthorized"
          "No code or state parameter found in the redirect URL."),
          clearSession session)) ∧
    (∀ c st, env.code = some c → c ≠ "" → env.state = some st → st ≠ "" →
      session.bind (·.state) ≠ some st →
      authorize env session =
        (.error (.badRequest "Unauthorized"
          "The session state does not match the state parameter. Make sure that the session is configured correctly and passed to `createCustomerAccountClient`."),
          clearSession session)) ∧
    (∀ c st v, env.code = some c → c ≠ "" → env.state = some st → st ≠ "" →
      session.bind (·.state) = some st →
      session.bind (·.codeVerifier) = some v → v ≠ "" →
      env.tokenResponse.ok = false →
      authorize env session =
        (.error (.httpResponse env.tokenResponse.body env.tokenResponse.status
          "text/html; charset=utf-8"), session)) := by
  refine ⟨fun hmiss => ?_, fun c st hc hcne hs hsne hmismatch => ?_,
    fun c st v hc hcne hs hsne hst hv hvne hok => ?_⟩
  · rcases hmiss with h | h | h | h <;> simp [authorize, falsyParam, h]
  · have hfc : falsyParam env.code = false := by simp [falsyParam, hc, hcne]
    have hfs : falsyParam (some st) = false := by simp [falsyParam, hsne]
    simp [authorize, hfc, hfs, hs, hmismatch]
  · have hfc : falsyParam env.code = false := by simp [falsyParam, hc, hcne]
    have hfs : falsyParam (some st) = false := by simp [falsyParam, hsne]
    have hfv : falsyParam (session.bind (·.codeVerifier)) = false := by
      simp [falsyParam, hv, hvne]
    simp [authorize, hfc, hfs, hs, hst, hfv, hok]

def sampleAuthorizeEnv : AuthorizeEnv :=
  { code := some "abc", state := some "st"
    tokenResponse := { ok := false, status := 403, body := "denied" }
    responseNonce := some "n", expiresIn := 7200, idToken := "id"
    refreshToken := "refresh", exchangedAccessToken := "exchanged", now := 0 }

theorem c5_authorize_errors_witness :
    authorize { sampleAuthorizeEnv with code := none } (some sampleCustomerSession) =
      (.error (.badRequest "Unauthorized"
        "No code or state parameter found in the redirect URL."), none) ∧
    authorize { sampleAuthorizeEnv with code := some "" }
        (some sampleCustomerSession) =
      (.error (.badRequest "Unauthorized"
        "No code or state parameter found in the redirect URL."), none) ∧
    authorize { sampleAuthorizeEnv with state := some "other" }
        (some sampleCustomerSession) =
      (.error (.badRequest "Unauthorized"
        "The session state does not match the state parameter. Make sure that the session is configured correctly and passed to `createCustomerAccountClient`."),
        none) ∧
    authorize sampleAuthorizeEnv (some sampleCustomerSession) =
      (.error (.httpResponse "denied" 403 "text/html; charset=utf-8"),
        some sampleCustomerSession) := by
  refine ⟨?_, ?_, ?_, ?_⟩
  · exact (c5_authorize_errors { sampleAuthorizeEnv with code := none }
      (some sampleCustomerSession)).1 (Or.inl rfl)
  · exact (c5_authorize_errors { sampleAuthorizeEnv with code := some "" }
      (some sampleCustomerSession)).1 (Or.inr (Or.inl rfl))
  · exact (c5_authorize_errors { sampleAuthorizeEnv with state := some "other" }
      (some sampleCustomerSession)).2.1 "abc" "other" rfl (by decide) rfl
      (by decide) (by decide)
  · exact (c5_authorize_errors sampleAuthorizeEnv
      (some sampleCustomerSession)).2.2 "abc" "st" "v" rfl (by decide) rfl
      (by decide) rfl rfl (by decide) rfl

/-- Claim C9: with no storefront URL redirects, the `return_to` (or
`redirect`) query parameter only yields a redirect response when its
value does not parse as a fully-qualified URL, and every value that does
parse as an absolute URL gets the 404 `Not found` response instead,
preventing open redirects. -/
theorem c9_notFound_no_open_redirect (parsesAsAbsoluteURL : String → Bool)
    (inp : NotFoundInput) (p : String)
    (hempty : inp.urlRedirectTargets = [])
    (hpath : redirectPathOf inp = some p) :
    (parsesAsAbsoluteURL p = true →
      notFoundMaybeRedirect parsesAsAbsoluteURL inp = .notFound 404 "Not found") ∧
    (∀ status loc,
      notFoundMaybeRedirect parsesAsAbsoluteURL inp = .redirectTo status loc →
      parsesAsAbsoluteURL p = false) := by
  constructor
  · intro habs
    simp [notFoundMaybeRedirect, hempty, hpath, isLocalPath, habs]
  · intro status loc hres
    by_contra hne
    have habs : parsesAsAbsoluteURL p = true := by
      cases hval : parsesAsAbsoluteURL p
      · exact absurd hval hne
      · rfl
    simp [notFoundMaybeRedirect, hempty, hpath, isLocalPath, habs] at hres

def sampleCrossDomainInput : NotFoundInput :=
  { urlRedirectTargets := [], returnTo := some "https://evil.example/phish"
    redirectParam := none }

/-- A concrete stand-in for the `new URL(value)` success oracle in the
witness: the value contains a `://` scheme separator. -/
def containsSchemeSeparator (s : String) : Bool :=
  hasSubSeq [':', '/', '/'] s.toList

theorem c9_notFound_no_open_redirect_witness :
    redirectPathOf sampleCrossDomainInput = some "https://evil.example/phish" ∧
    notFoundMaybeRedirect containsSchemeSeparator sampleCrossDomainInput =
      .notFound 404 "Not found" := by
  refine ⟨rfl, ?_⟩
  exact (c9_notFound_no_open_redirect containsSchemeSeparator
    sampleCrossDomainInput "https://evil.example/phish" rfl rfl).1 (by decide)

/-- Claim C4: the inspector proxy answers `/json` and `/json/list`
(query string stripped) with a JSON array of exactly one inspector
target whose `webSocketDebuggerUrl` is `ws://localhost:<port>/ws` for
the proxy's own port; `/json/version` gets
`{"Browser":"hydrogen/v2","Protocol-Version":"1.3"}`; and
`/__index.js.map` gets the contents of the source map file. -/
theorem c4_inspectorProxy_endpoints (port : Nat) (sessionId : String)
    (sourceFilePath : String) (inspectorHost : Option String)
    (readFileSync : String → String) (rawUrl : Option String) :
    (stripQuery rawUrl = "/json/version" →
      inspectorProxyHttpHandler port sessionId sourceFilePath inspectorHost
          readFileSync rawUrl =
        some { contentType := "application/json"
               cacheControl := none, accessControlAllowOrigin := none
               body := .json (.obj [("Browser", .str "hydrogen/v2"),
                                    ("Protocol-Version", .str "1.3")]) }) ∧
    (stripQuery rawUrl = "/json" ∨ stripQuery rawUrl = "/json/list" →
      inspectorProxyHttpHandler port sessionId sourceFilePath inspectorHost
          readFileSync rawUrl =
        some { contentType := "application/json"
               cacheControl := none, accessControlAllowOrigin := none
               body := .json
                 (.arr [inspectorTargetJson port sessionId inspectorHost]) } ∧
      jField "webSocketDebuggerUrl"
          (inspectorTargetJson port sessionId inspectorHost) =
        some (.str ("ws://localhost:" ++ toString port ++ "/ws"))) ∧
    (stripQuery rawUrl = "/__index.js.map" →
      inspectorProxyHttpHandler port sessionId sourceFilePath inspectorHost
          readFileSync rawUrl =
        some { contentType := "text/plain"
               cacheControl := some "no-store"
               accessControlAllowOrigin := some "devtools://devtools"
               body := .text (readFileSync (sourceFilePath ++ ".map")) }) := by
  refine ⟨fun hv => ?_, fun hj => ⟨?_, ?_⟩, fun hm => ?_⟩
  · simp [inspectorProxyHttpHandler, hv]
  · rcases hj with hj | hj <;> simp [inspectorProxyHttpHandler, hj]
  · simp only [jField, inspectorTargetJson, List.lookup]
    norm_num
    rw [← String.append_assoc]
    rfl
  · simp [inspectorProxyHttpHandler, hm]

theorem c4_inspectorProxy_endpoints_witness :
    inspectorProxyHttpHandler 9230 "session-1" "/proj/dist/index.js" none
        (fun path => "sourcemap of " ++ path) (some "/json/list?for_tab=node") =
      some { contentType := "application/json"
             cacheControl := none, accessControlAllowOrigin := none
             body := .json (.arr [inspectorTargetJson 9230 "session-1" none]) } ∧
    jField "webSocketDebuggerUrl" (inspectorTargetJson 9230 "session-1" none) =
      some (.str "ws://localhost:9230/ws") ∧
    inspectorProxyHttpHandler 9230 "session-1" "/proj/dist/index.js" none
        (fun path => "sourcemap of " ++ path) (some "/json/version") =
      some { contentType := "application/json"
             cacheControl := none, accessControlAllowOrigin := none
             body := .json (.obj [("Browser", .str "hydrogen/v2"),
                                  ("Protocol-Version", .str "1.3")]) } ∧
    inspectorProxyHttpHandler 9230 "session-1" "/proj/dist/index.js" none
        (fun path => "sourcemap of " ++ path) (some "/__index.js.map") =
      some { contentType := "text/plain"
             cacheControl := some "no-store"
             accessControlAllowOrigin := some "devtools://devtools"
             body := .text "sourcemap of /proj/dist/index.js.map" } := by
  have h := c4_inspectorProxy_endpoints 9230 "session-1" "/proj/dist/index.js"
    none (fun path => "sourcemap of " ++ path) (some "/json/list?for_tab=node")
  have hv := c4_inspectorProxy_endpoints 9230 "session-1" "/proj/dist/index.js"
    none (fun path => "sourcemap of " ++ path) (some "/json/version")
  have hm := c4_inspectorProxy_endpoints 9230 "session-1" "/proj/dist/index.js"
    none (fun path => "sourcemap of " ++ path) (some "/__index.js.map")
  exact ⟨(h.2.1 (Or.inr rfl)).1, (h.2.1 (Or.inr rfl)).2, hv.1 rfl, hm.2.2 rfl⟩

/-- Claim C6: every failure of `runCustomerAccountPush` raises an
`AbortError` whose next steps always include the
`Manually update application setup` link; the
`Enable Public access for Hydrogen` step is prepended exactly when some
user error message matches
`Javascript origin is not allowed for this application type`
case-insensitively; and the error body lists each user error as
`field: message`. -/
theorem c6_customerAccountPush_abort (storefrontId : Option String)
    (success : Bool) (userErrors : List UserError) :
    (runCustomerAccountPush none success userErrors =
      .abortError "Customer Account Application setup update fail."
        ["No storefrontId was found in --storefront-id flag or .shopify/project.json"]
        [manualUpdateStep]) ∧
    (storefrontId.isSome → (success = false ∨ userErrors ≠ []) →
      runCustomerAccountPush storefrontId success userErrors =
        .abortError "Customer Account Application setup update fail."
          (if userErrors = [] then
            ["Customer Account Application setup update fail."]
          else userErrors.map userErrorLine)
          (if userErrors.any (fun e => matchesConfidentialAccess e.message) then
            [enablePublicAccessStep, manualUpdateStep]
          else [manualUpdateStep])) ∧
    (∀ headline errorItems nextSteps,
      runCustomerAccountPush storefrontId success userErrors =
        .abortError headline errorItems nextSteps →
      manualUpdateStep ∈ nextSteps) := by
  refine ⟨?_, fun hsid hfail => ?_, fun headline errorItems nextSteps habort => ?_⟩
  · simp [runCustomerAccountPush, pushAbortError]
  · cases storefrontId with
    | none => simp at hsid
    | some sid =>
      have hcond : (!success || userErrors.length != 0) = true := by
        rcases hfail with hf | hf
        · simp [hf]
        · simp [List.length_eq_zero, hf]
      simp only [runCustomerAccountPush, hcond, if_true, pushAbortError]
      by_cases hempty : userErrors = []
      · simp [hempty]
      · simp [hempty, List.length_eq_zero]
  · cases storefrontId with
    | none =>
      simp only [runCustomerAccountPush, pushAbortError] at habort
      simp only [PushResult.abortError.injEq] at habort
      rw [← habort.2.2]
      simp
    | some sid =>
      simp only [runCustomerAccountPush] at habort
      by_cases hcond : (!success || userErrors.length != 0) = true
      · simp only [hcond, if_true, pushAbortError, PushResult.abortError.injEq]
          at habort
        rw [← habort.2.2]
        by_cases hfound :
            userErrors.any (fun e => matchesConfidentialAccess e.message) = true
        · simp [hfound]
        · simp [hfound]
      · simp [hcond] at habort

theorem c6_customerAccountPush_abort_witness :
    runCustomerAccountPush (some "gid://shopify/HydrogenStorefront/1") false
        [{ field := ["applicationUrls"]
           message := "Javascript Origin is not allowed for this application type"
           code := "INVALID" }] =
      .abortError "Customer Account Application setup update fail."
        ["applicationUrls: Javascript Origin is not allowed for this application type"]
        [enablePublicAccessStep, manualUpdateStep] := by
  have h := (c6_customerAccountPush_abort
    (some "gid://shopify/HydrogenStorefront/1") false
    [{ field := ["applicationUrls"]
       message := "Javascript Origin is not allowed for this application type"
       code := "INVALID" }]).2.1 rfl (Or.inl rfl)
  simpa [userErrorLine, matchesConfidentialAccess, containsSubstringCI,
    hasSubSeq] using h

/-- Claim C3: `formatDeployment` returns the locale-formatted `createdAt`
date followed by `, ` and the first line of the commit message when one
is present (later lines of a multi-line message are dropped), and the
formatted date alone when the commit message is null. -/
theorem c3_formatDeployment (localeDate : String → String)
    (createdAt message : String) :
    formatDeployment localeDate { createdAt, commitMessage := some message } =
      localeDate createdAt ++ ", " ++ (message.splitOn "\n").headD "" ∧
    formatDeployment localeDate { createdAt, commitMessage := none } =
      localeDate createdAt := by
  constructor
  · simp [formatDeployment, String.append_assoc]
  · simp [formatDeployment]

/-- Helper: once some refresh is in flight, further concurrent
`checkExpires` steps issue nothing and change nothing. -/
lemma runConcurrentChecks_locked (expired : Bool) (sched : List Nat)
    (s : RefreshState) (t : Nat) (h : s.locks.refresh = some t) :
    runConcurrentChecks expired sched s = s := by
  induction sched with
  | nil => rfl
  | cons tid rest ih =>
    have hstep : checkExpiresAcquire expired tid s = s := by
      cases expired <;> simp [checkExpiresAcquire, h]
    simpa [runConcurrentChecks, hstep] using ih

/-- Claim C8: concurrent `checkExpires` calls over the client's single
shared locks object are mutually excluded: in every interleaving of
concurrent calls starting with no refresh in flight, at most one refresh
request is issued; and once a refresh holds the lock, no further request
is issued at all. -/
theorem c8_refresh_lock_mutual_exclusion (expired : Bool) (sched : List Nat)
    (s : RefreshState) (h : s.locks.refresh = none) :
    (runConcurrentChecks expired sched s).refreshRequests ≤
      s.refreshRequests + 1 ∧
    ∀ t sched2 s2, s2.locks.refresh = some t →
      (runConcurrentChecks expired sched2 s2).refreshRequests =
        s2.refreshRequests := by
  refine ⟨?_, fun t sched2 s2 h2 => by
    rw [runConcurrentChecks_locked expired sched2 s2 t h2]⟩
  cases expired with
  | false =>
    have hid : runConcurrentChecks false sched s = s := by
      induction sched with
      | nil => rfl
      | cons tid rest ih =>
        simp only [runConcurrentChecks, List.foldl_cons, checkExpiresAcquire,
          Bool.false_eq_true, if_false] at ih ⊢
        exact ih
    rw [hid]
    omega
  | true =>
    cases sched with
    | nil =>
      simp [runConcurrentChecks]
    | cons tid rest =>
      have hstep : checkExpiresAcquire true tid s =
          { locks := { refresh := some tid }
            refreshRequests := s.refreshRequests + 1 } := by
        simp [checkExpiresAcquire, h]
      have hrest := runConcurrentChecks_locked true rest
        { locks := { refresh := some tid }
          refreshRequests := s.refreshRequests + 1 } tid rfl
      have hall : runConcurrentChecks true (tid :: rest) s =
          { locks := { refresh := some tid }
            refreshRequests := s.refreshRequests + 1 } := by
        simp only [runConcurrentChecks, List.foldl_cons] at hrest ⊢
        rw [hstep]
        exact hrest
      rw [hall]

theorem c8_refresh_lock_mutual_exclusion_witness :
    ({ locks := { refresh := none }, refreshRequests := 0 } :
        RefreshState).locks.refresh = none ∧
    (runConcurrentChecks true [1, 2, 3]
        { locks := { refresh := none }, refreshRequests := 0 }).refreshRequests ≤
      0 + 1 := by
  exact ⟨rfl, (c8_refresh_lock_mutual_exclusion true [1, 2, 3]
    { locks := { refresh := none }, refreshRequests := 0 } rfl).1⟩

/-- Helper: flushing a buffer while a debugger is attached delivers every
message, in order, to that debugger. -/
lemma foldl_sendMessageToDebugger (T : String → String) (d : Nat) :
    ∀ (buf : List String) (s : ProxyWsState), s.debuggerWs = some d →
      buf.foldl (sendMessageToDebugger T) s =
        { s with debuggerSent := s.debuggerSent ++
            buf.map (fun m => (d, if s.isDevToolsInBrowser then T m else m)) } := by
  intro buf
  induction buf with
  | nil => intro s h; simp
  | cons m rest ih =>
    intro s h
    have hstep : sendMessageToDebugger T s m =
        { s with debuggerSent := s.debuggerSent ++
            [(d, if s.isDevToolsInBrowser then T m else m)] } := by
      simp [sendMessageToDebugger, h]
    rw [List.foldl_cons, hstep, ih _ (by simp [h])]
    simp

/-- Claim C10: the inspector proxy keeps at most one debugger attached:
a connection arriving while the tracked client count exceeds one is
closed with code 1013 (`Too many clients; only one can be connected at a
time`) and the rest of the state — attached debugger, buffer, delivered
messages — is unchanged; an inspector message arriving with no debugger
attached is appended to the buffer; and an accepted connection receives
every buffered message in arrival order, after which the buffer is
empty. -/
theorem c10_inspectorProxy_single_debugger (T : String → String)
    (s : ProxyWsState) (id : Nat) (ua : Bool) (data : String) :
    (s.clients ≠ [] →
      proxyStep T s (.connect id ua) =
        { s with closes := s.closes ++ [(id, 1013, tooManyClientsReason)] }) ∧
    (s.debuggerWs = none →
      proxyStep T s (.inspectorMessage data) =
        { s with messageBuffer := s.messageBuffer ++
            [if s.isDevToolsInBrowser then T data else data] }) ∧
    (s.clients = [] →
      (proxyStep T s (.connect id ua)).messageBuffer = [] ∧
      (proxyStep T s (.connect id ua)).debuggerSent =
        s.debuggerSent ++ s.messageBuffer.map (fun m => (id, if ua then T m else m)) ∧
      (proxyStep T s (.connect id ua)).debuggerWs = some id) := by
  obtain ⟨cl, dbg, devb, buf, sent, insp, cls, iatt⟩ := s
  refine ⟨fun hne => ?_, fun hnone => ?_, fun hempty => ?_⟩
  · have hne2 : cl ≠ [] := hne
    have hlen : (cl ++ [id]).length > 1 := by
      have := List.length_pos.mpr hne2
      simp only [List.length_append, List.length_cons, List.length_nil]
      omega
    simp only [proxyStep]
    rw [if_pos hlen]
  · have hnone2 : dbg = none := hnone
    subst hnone2
    simp [proxyStep, sendMessageToDebugger]
  · have hempty2 : cl = [] := hempty
    subst hempty2
    have hflush := fun insp2 =>
      foldl_sendMessageToDebugger T id buf
        { clients := [id], debuggerWs := some id, isDevToolsInBrowser := ua
          messageBuffer := buf, debuggerSent := sent, inspectorSent := insp2
          closes := cls, inspectorAttached := iatt } rfl
    cases iatt <;> simp [proxyStep, hflush]

def sampleBusyProxyState : ProxyWsState :=
  { clients := [7], debuggerWs := some 7, isDevToolsInBrowser := false
    messageBuffer := [], debuggerSent := [], inspectorSent := []
    closes := [], inspectorAttached := true }

def sampleIdleProxyState : ProxyWsState :=
  { clients := [], debuggerWs := none, isDevToolsInBrowser := false
    messageBuffer := ["log-a", "log-b"], debuggerSent := [], inspectorSent := []
    closes := [], inspectorAttached := true }

theorem c10_inspectorProxy_single_debugger_witness :
    proxyStep id sampleBusyProxyState (.connect 8 false) =
      { sampleBusyProxyState with
          closes := [(8, 1013, tooManyClientsReason)] } ∧
    proxyStep id sampleIdleProxyState (.inspectorMessage "log-c") =
      { sampleIdleProxyState with
          messageBuffer := ["log-a", "log-b", "log-c"] } ∧
    (proxyStep id sampleIdleProxyState (.connect 9 false)).messageBuffer = [] ∧
    (proxyStep id sampleIdleProxyState (.connect 9 false)).debuggerSent =
      [(9, "log-a"), (9, "log-b")] ∧
    (proxyStep id sampleIdleProxyState (.connect 9 false)).debuggerWs = some 9 := by
  have hbusy := c10_inspectorProxy_single_debugger id sampleBusyProxyState
    8 false "unused"
  have hidle := c10_inspectorProxy_single_debugger id sampleIdleProxyState
    9 false "log-c"
  have hflush := hidle.2.2 rfl
  refine ⟨?_, ?_, hflush.1, ?_, hflush.2.2⟩
  · simpa [sampleBusyProxyState] using hbusy.1 (by decide)
  · simpa [sampleIdleProxyState] using hidle.2.1 rfl
  · simpa [sampleIdleProxyState] using hflush.2.1
